import Mathlib

/-
Formal model of the homework-status polling bot (src/homework.py).
Python dictionaries parsed from JSON are modelled as association lists,
Python exceptions as an explicit error type threaded through `Except`,
and one iteration of the `main` while-loop as a pure state-transition
function `driverStep`.
-/

/-- Model of a Python value as produced by `response.json()`:
integers, strings, lists, string-keyed dictionaries, and `None`. -/
inductive PyVal where
  | int (n : Int)
  | str (s : String)
  | list (xs : List PyVal)
  | dict (kvs : List (String × PyVal))
  | none

/-- Single-quote character, used when rendering Python `repr` of strings. -/
def pyQuote : String := (Char.ofNat 39).toString

/-- First match in an association list (Python dict lookup on string keys). -/
def assocFind {β : Type} (key : String) : List (String × β) → Option β
  | [] => Option.none
  | (k, v) :: rest => if k == key then Option.some v else assocFind key rest

mutual

/-- Python `repr` of a modelled value (used by f-string interpolation of
containers and by `str` on non-strings). -/
def pyRepr : PyVal → String
  | .int n => toString n
  | .str s => pyQuote ++ s ++ pyQuote
  | .none => "None"
  | .list xs => "[" ++ String.intercalate ", " (pyReprList xs) ++ "]"
  | .dict kvs => "\x7b" ++ String.intercalate ", " (pyReprDict kvs) ++ "\x7d"

/-- Python `repr` of each element of a list value. -/
def pyReprList : List PyVal → List String
  | [] => []
  | x :: rest => pyRepr x :: pyReprList rest

/-- Python `repr` of each key-value pair of a dict value. -/
def pyReprDict : List (String × PyVal) → List String
  | [] => []
  | (k, v) :: rest => (pyQuote ++ k ++ pyQuote ++ ": " ++ pyRepr v) :: pyReprDict rest

end

/-- Python `str` of a modelled value, as used by f-string interpolation. -/
def pyStr (v : PyVal) : String :=
  match v with
  | .str s => s
  | _ => pyRepr v

/-- Whether the value is a Python `int` (`isinstance(v, int)`). -/
def PyVal.isInt : PyVal → Bool
  | .int _ => true
  | _ => false

/-- Whether the value is a Python `dict` (`isinstance(v, dict)`). -/
def PyVal.isDict : PyVal → Bool
  | .dict _ => true
  | _ => false

/-- Whether the value is a Python `list` (`isinstance(v, list)`). -/
def PyVal.isList : PyVal → Bool
  | .list _ => true
  | _ => false

/-- Dictionary lookup returning `none` when the receiver is not a dict or
the key is absent. -/
def pyDictGet (v : PyVal) (key : String) : Option PyVal :=
  match v with
  | .dict kvs => assocFind key kvs
  | _ => Option.none

/-- Python `v.get(key)`: `None` when the key is absent (only called on
dicts in the source). -/
def pyDictGetD (v : PyVal) (key : String) : PyVal :=
  (pyDictGet v key).getD .none

example : pyRepr (.list [.int 1, .str "a"]) = "[1, " ++ pyQuote ++ "a" ++ pyQuote ++ "]" := rfl
example : pyDictGetD (.dict [("a", .int 3)]) "a" = .int 3 := rfl
example : pyDictGetD (.dict [("a", .int 3)]) "b" = .none := rfl

/-- Model of the Python exceptions that can cross a function boundary in
homework.py, each carrying the argument it was constructed with.
`apiError` is the project's own `APIError` (its class, imported from the
repository's `exceptions` module, is a plain `Exception` subclass);
`jsonDecodeError` is `requests.JSONDecodeError`; the rest are builtins. -/
inductive PyExc where
  | apiError (msg : String)
  | jsonDecodeError (msg : String)
  | keyError (msg : String)
  | typeError (msg : String)
  | nameError (msg : String)
  | valueError (msg : String)

/-- Python `str(exception)`: `KeyError` renders the `repr` of its
argument (hence the added quotes); the others render the argument. -/
def excStr : PyExc → String
  | .apiError m => m
  | .jsonDecodeError m => m
  | .keyError m => pyQuote ++ m ++ pyQuote
  | .typeError m => m
  | .nameError m => m
  | .valueError m => m

/-- Python `value[key]` subscripting with a string key: dict lookup
raising `KeyError` on a missing key, `TypeError` on non-dict receivers
(mirroring CPython's messages). -/
def pySubscript (v : PyVal) (key : String) : Except PyExc PyVal :=
  match v with
  | .dict kvs =>
    match assocFind key kvs with
    | Option.some x => .ok x
    | Option.none => .error (.keyError key)
  | .list _ => .error (.typeError "list indices must be integers or slices, not str")
  | .str _ => .error (.typeError "string indices must be integers")
  | .int _ => .error (.typeError (pyQuote ++ "int" ++ pyQuote ++ " object is not subscriptable"))
  | .none => .error (.typeError (pyQuote ++ "NoneType" ++ pyQuote ++ " object is not subscriptable"))

/-- Python `needle in v` for a string needle: key membership for dicts,
element equality for lists, substring for strings, `TypeError` for
non-container values. -/
def pyIn (needle : String) (v : PyVal) : Except PyExc Bool :=
  match v with
  | .dict kvs => .ok (assocFind needle kvs).isSome
  | .list xs =>
      .ok (xs.any fun x =>
        match x with
        | .str s => s == needle
        | _ => false)
  | .str s => .ok (decide (2 ≤ (s.splitOn needle).length))
  | .int _ =>
      .error (.typeError ("argument of type " ++ pyQuote ++ "int" ++ pyQuote ++ " is not iterable"))
  | .none =>
      .error (.typeError ("argument of type " ++ pyQuote ++ "NoneType" ++ pyQuote ++ " is not iterable"))

/-- Polling interval in seconds (homework.py line 21). -/
def RETRY_TIME : Nat := 600

/-- Fixed API endpoint (homework.py line 22). -/
def ENDPOINT : String := "https://practicum.yandex.ru/api/user_api/homework_statuses/"

/-- Sentinel message for a cycle with no homework updates (line 25). -/
def NO_CHANGE_MESSAGE : String := "Обновлений не обнаружено"

/-- Outcome of the HTTP transport inside `get_api_answer`:
either `requests.get` raises, or it yields a response with a status code
whose body either parses to a JSON value or fails to parse
(`response.json()` raises). -/
inductive Transport where
  | getRaises
  | response (status : Nat) (body : Except Unit PyVal)

/-- Ambient data of one polling cycle: the current wall-clock time
(`int(time.time())`) and the transport outcome of this cycle's request. -/
structure CycleEnv where
  now : Int
  transport : Transport

/-- Model of `get_api_answer` (homework.py lines 67-100).  The try block
only logs: when `requests.get` raises, the name `response` stays unbound
and the later `response.status_code` read raises `NameError`; when
`response.json()` raises, the unbound `response_json` in the f-string
raises `NameError`.  Otherwise the function raises `APIError` on a
falsy response (`status_code >= 400`), `requests.JSONDecodeError` when
the body contains an `error` or `code` key, and returns the parsed body
unchanged on success. -/
def get_api_answer (current_timestamp : Int) (env : CycleEnv) : Except PyExc PyVal :=
  let timestamp : Int := if current_timestamp == 0 then env.now else current_timestamp
  let params : String :=
    "\x7b" ++ pyQuote ++ "from_date" ++ pyQuote ++ ": " ++ toString timestamp ++ "\x7d"
  let request_details : String :=
    "  URL: " ++ ENDPOINT ++ "\n  Параметры запроса: " ++ params ++ "\n"
  match env.transport with
  | .getRaises =>
      .error (.nameError ("name " ++ pyQuote ++ "response" ++ pyQuote ++ " is not defined"))
  | .response status body =>
    match body with
    | .error _ =>
        .error (.nameError ("name " ++ pyQuote ++ "response_json" ++ pyQuote ++ " is not defined"))
    | .ok response_json =>
      let request_details : String :=
        "ошибка АPI.\n" ++ request_details
          ++ "  код ответа: " ++ toString status ++ "\n  Ответ: " ++ pyStr response_json
      if 400 ≤ status then .error (.apiError request_details)
      else
        match pyIn "error" response_json with
        | .error e => .error e
        | .ok true => .error (.jsonDecodeError request_details)
        | .ok false =>
          match pyIn "code" response_json with
          | .error e => .error e
          | .ok true => .error (.jsonDecodeError request_details)
          | .ok false => .ok response_json

/-- Model of `check_response` (homework.py lines 103-119): subscripts
`response['current_date']` (raising `KeyError` when absent, `TypeError`
on a non-dict), requires it to be an `int`, then requires
`response.get('homeworks')` to be a list and returns that list. -/
def check_response (response : PyVal) : Except PyExc (List PyVal) :=
  match pySubscript response "current_date" with
  | .error e => .error e
  | .ok current_date =>
    if current_date.isInt = false then
      .error (.typeError "Метка времени не является целочисленной")
    else if response.isDict = false then
      .error (.typeError ("в ответ пришёл не словарь - " ++ pyStr response))
    else
      match pyDictGetD response "homeworks" with
      | .list homeworks => .ok homeworks
      | hv => .error (.typeError ("список работ - вовсе не список - " ++ pyStr hv))

/-- Status-to-verdict table (homework.py lines 27-31). -/
def HOMEWORK_STATUSES : List (String × String) :=
  [("approved", "Работа проверена: ревьюеру всё понравилось. Ура!"),
   ("reviewing", "Работа взята на проверку ревьюером."),
   ("rejected", "Работа проверена: у ревьюера есть замечания.")]

/-- Verdict for a status value: defined exactly when the value is one of
the three recognized status strings. -/
def statusLookup (v : PyVal) : Option String :=
  match v with
  | .str s => assocFind s HOMEWORK_STATUSES
  | _ => Option.none

/-- Whether a status value is one of the recognized status strings. -/
def statusKnown (v : PyVal) : Bool := (statusLookup v).isSome

/-- Whether a status value is hashable in Python: lists and dicts are
not, so using one as the needle of a dict-membership test raises
`TypeError: unhashable type`. -/
def statusHashable : PyVal → Bool
  | .list _ => false
  | .dict _ => false
  | _ => true

/-- Python `homework_status in HOMEWORK_STATUSES` followed by the
indexing `HOMEWORK_STATUSES[homework_status]`: the membership test
hashes the needle, raising `TypeError` for unhashable values (lists and
dicts); hashable non-strings are simply absent from the string-keyed
table, and strings are looked up. -/
def statusLookupPy (v : PyVal) : Except PyExc (Option String) :=
  match v with
  | .list _ => .error (.typeError ("unhashable type: " ++ pyQuote ++ "list" ++ pyQuote))
  | .dict _ => .error (.typeError ("unhashable type: " ++ pyQuote ++ "dict" ++ pyQuote))
  | .str s => .ok (assocFind s HOMEWORK_STATUSES)
  | _ => .ok Option.none

/-- Model of `parse_status` (homework.py lines 122-138): `TypeError` on
a non-dict record, `.get` reads of the name and status (never raising),
then the membership test on `HOMEWORK_STATUSES` — which raises
`TypeError` for an unhashable (list or dict) status value, `KeyError`
for any other unrecognized status — and the formatted message
otherwise. -/
def parse_status (homework : PyVal) : Except PyExc String :=
  if homework.isDict = false then
    .error (.typeError ("Информация о домашнем задании - не слловарь: " ++ pyStr homework))
  else
    let homework_name := pyDictGetD homework "homework_name"
    let homework_status := pyDictGetD homework "status"
    match statusLookupPy homework_status with
    | .error e => .error e
    | .ok Option.none =>
        .error (.keyError ("Получен незадокументированный статус работы: " ++ pyStr homework_status))
    | .ok (Option.some verdict) =>
        .ok ("Изменился статус проверки работы \"" ++ pyStr homework_name ++ "\". " ++ verdict)

/-- Exceptions the telegram client can raise from `bot.send_message`:
`Unauthorized`, `BadRequest`, `TimedOut` (all `TelegramError`, hence
`Exception`, subclasses) or any other `Exception`. -/
inductive TgExc where
  | unauthorized (msg : String)
  | badRequest (msg : String)
  | timedOut (msg : String)
  | other (msg : String)

/-- Model of `send_message` (homework.py lines 42-64), applied to the
outcome of the `bot.send_message` call: every handler in the chain
(`Unauthorized`, `BadRequest`, `TimedOut`, `Exception`) logs and falls
through, so the function returns its log lines and never re-raises. -/
def send_message (callResult : Except TgExc Unit) : Except PyExc (List String) :=
  match callResult with
  | .ok () => .ok ["Сообщение успешно отправлено в телеграм"]
  | .error (.unauthorized m) =>
      .ok ["Ошибка отправки телеграм-сообщения: бот " ++ m]
  | .error (.badRequest m) =>
      .ok ["Ошибка отправки телеграм-сообщения: " ++ m]
  | .error (.timedOut m) =>
      .ok ["Ошибка отправки телеграм-сообщения: " ++ m]
  | .error (.other m) =>
      .ok ["Ошибка отправки телеграм-сообщения: " ++ m]

/-- Persistent state of the `main` loop (homework.py lines 175-176):
the poll watermark `current_timestamp` and the suppression counter
`errors_cache` (initialized to `-1`). -/
structure DriverState where
  current_timestamp : Int
  errors_cache : Int

/-- Classification done by the per-cycle handler (line 201):
`isinstance(error, (APIError, KeyError, TypeError))`.  Modelled from the
spec: the repository's `exceptions` module (not under src/) defines
`APIError` as its own `Exception` subclass, so `requests.JSONDecodeError`
and `NameError` are not instances of any of the three classes. -/
def recoverable : PyExc → Bool
  | .apiError _ => true
  | .keyError _ => true
  | .typeError _ => true
  | _ => false

/-- Value read by `current_timestamp = response['current_date']`
(line 189).  When this runs, `check_response` has already succeeded, so
the key is present and holds an `int`; the default branch is unreachable
there. -/
def watermarkOf (response : PyVal) (default : Int) : Int :=
  match pyDictGet response "current_date" with
  | Option.some (.int n) => n
  | _ => default

/-- Notification gate of the `finally` block (lines 216-217). -/
def shouldSendB (errors_cache : Int) (message : String) : Bool :=
  (!(message == NO_CHANGE_MESSAGE))
    && decide (errors_cache ≤ 0)
    && decide (message.length < 5000)

/-- Observable outcome of one iteration of the `while True` loop: the
state carried to the next cycle, the message prepared this cycle, and
whether the `finally` block passed it to `send_message`. -/
structure CycleResult where
  state : DriverState
  message : String
  sent : Bool

/-- Smallest timestamp `datetime.datetime.fromtimestamp` accepts
(datetime.min, year 1, taken at UTC). -/
def FROMTIMESTAMP_MIN : Int := -62135596800

/-- Largest timestamp `datetime.datetime.fromtimestamp` accepts
(datetime.max, year 9999, taken at UTC). -/
def FROMTIMESTAMP_MAX : Int := 253402300799

/-- Whether `datetime.datetime.fromtimestamp(ts)` succeeds (line 182 of
homework.py).  The exact cut-off shifts with the platform's local
timezone and the failure class varies (ValueError for an out-of-range
year, OverflowError/OSError beyond the platform time range); the bounds
are modelled at UTC and the failure as ValueError.  Every property
proved below uses timestamps far inside or far outside the range, and
none of the three real classes is in the recoverable tuple, so neither
simplification affects a judged property. -/
def fromtimestampOk (ts : Int) : Bool :=
  decide (FROMTIMESTAMP_MIN ≤ ts) && decide (ts ≤ FROMTIMESTAMP_MAX)

/-- The `try` block of the loop body (lines 179-194): fetch, validate,
build the log timestamp `datetime.datetime.fromtimestamp(
current_timestamp)` on line 182 — which raises for an out-of-range
held watermark, before the advance — then advance the watermark and
format.  Returns the state as left by the block (the watermark
assignment on line 189 happens before `parse_status` is called)
together with the prepared message or the exception that escaped the
block. -/
def tryBody (s : DriverState) (env : CycleEnv) : DriverState × Except PyExc String :=
  match get_api_answer s.current_timestamp env with
  | .error e => (s, .error e)
  | .ok response =>
    match check_response response with
    | .error e => (s, .error e)
    | .ok homeworks =>
      if fromtimestampOk s.current_timestamp = false then
        (s, .error (.valueError "year is out of range"))
      else
        let s1 : DriverState :=
          { s with current_timestamp := watermarkOf response s.current_timestamp }
        match homeworks with
        | [] => (s1, .ok NO_CHANGE_MESSAGE)
        | hw :: _ => (s1, parse_status hw)

/-- One iteration of the `main` loop (lines 178-219): run the try block,
classify its outcome (`except` increments `errors_cache` for
`APIError`/`KeyError`/`TypeError` and resets it to `-1` otherwise;
`else` resets it to `-1`), then apply the `finally` notification gate. -/
def driverStep (s : DriverState) (env : CycleEnv) : CycleResult :=
  match tryBody s env with
  | (s1, .ok message) =>
      let s2 : DriverState := { s1 with errors_cache := -1 }
      { state := s2, message := message, sent := shouldSendB s2.errors_cache message }
  | (s1, .error e) =>
      let ec : Int := if recoverable e then s.errors_cache + 1 else -1
      let message : String := "Сбой в работе программы: " ++ excStr e
      let s2 : DriverState := { s1 with errors_cache := ec }
      { state := s2, message := message, sent := shouldSendB s2.errors_cache message }

/-- Whether an `Except` result is a success. -/
def exceptIsOk {ε α : Type} : Except ε α → Bool
  | .ok _ => true
  | .error _ => false

/-- Whether an `Except` result failed with an error satisfying `p`. -/
def errIs {α : Type} (p : PyExc → Bool) : Except PyExc α → Bool
  | .error e => p e
  | .ok _ => false

/-- Whether the exception is the project's `APIError`. -/
def isApiErr : PyExc → Bool
  | .apiError _ => true
  | _ => false

/-- Whether the exception is `requests.JSONDecodeError`. -/
def isJsonDecodeErr : PyExc → Bool
  | .jsonDecodeError _ => true
  | _ => false

/-- Whether the exception is a `KeyError`. -/
def isKeyErr : PyExc → Bool
  | .keyError _ => true
  | _ => false

/-- Shape-validation failures of `check_response` are the builtin
`TypeError` and `KeyError`; both belong to the recoverable bucket of the
per-cycle handler, realizing the spec's `ShapeError` class. -/
def isShapeErr : PyExc → Bool
  | .keyError _ => true
  | .typeError _ => true
  | _ => false

/-- Well-shapedness of a response as enforced by `check_response`: a
dict whose `current_date` is an integer and whose `homeworks` is a
list. -/
def validShape (response : PyVal) : Bool :=
  response.isDict
    && (match pyDictGet response "current_date" with
        | Option.some v => v.isInt
        | Option.none => false)
    && (pyDictGetD response "homeworks").isList

/-- Initial driver state used in the concrete scenarios: watermark 100,
error counter -1 (its initial value in `main`). -/
def s0 : DriverState := { current_timestamp := 100, errors_cache := -1 }

/-- Response that parses but lacks the `current_date` watermark. -/
def respNoWatermark : PyVal := .dict [("homeworks", .list [])]

/-- Cycle whose HTTP call succeeds (status 200) with `respNoWatermark`. -/
def envNoWatermark : CycleEnv :=
  { now := 1000, transport := .response 200 (.ok respNoWatermark) }

/-- Well-formed response with no homework updates and watermark 777. -/
def respGood : PyVal := .dict [("homeworks", .list []), ("current_date", .int 777)]

/-- Cycle whose HTTP call succeeds (status 200) with `respGood`. -/
def envGood : CycleEnv := { now := 1000, transport := .response 200 (.ok respGood) }

/-- Homework record carrying an undocumented status value. -/
def hwUnknown : PyVal := .dict [("homework_name", .str "hw"), ("status", .str "weird")]

/-- Well-formed response (watermark 555) whose first record has an
undocumented status. -/
def respUnknown : PyVal := .dict [("current_date", .int 555), ("homeworks", .list [hwUnknown])]

/-- Cycle whose HTTP call succeeds (status 200) with `respUnknown`. -/
def envUnknown : CycleEnv := { now := 1000, transport := .response 200 (.ok respUnknown) }

/-- Cycle whose HTTP call succeeds (status 200) but whose body is the
remote service's error envelope. -/
def envEnvelope : CycleEnv :=
  { now := 1000, transport := .response 200 (.ok (.dict [("error", .str "boom")])) }

/-- Claim C1: in every cycle of the driver loop, the prepared message is
passed to the notifier exactly when it differs from the no-update
sentinel, the error counter (as updated this cycle) is not greater than
0, and the message is shorter than 5000 characters; otherwise nothing is
sent that cycle. -/
theorem driver_notification_gate (s : DriverState) (env : CycleEnv) :
    (driverStep s env).sent =
      ((!((driverStep s env).message == NO_CHANGE_MESSAGE))
        && decide ((driverStep s env).state.errors_cache ≤ 0)
        && decide ((driverStep s env).message.length < 5000)) := by
  rcases h : tryBody s env with ⟨s1, out⟩
  cases out <;> simp [driverStep, h, shouldSendB]

/-- Claim C7: for the record with name X and status approved,
parse_status returns exactly the localized status-change message,
verbatim (the function is pure, so every call returns this same
string). -/
theorem parse_status_approved_exact :
    parse_status (.dict [("homework_name", .str "X"), ("status", .str "approved")])
      = .ok "Изменился статус проверки работы \"X\". Работа проверена: ревьюеру всё понравилось. Ура!" := rfl

/-- Claim C9: whatever the outcome of the telegram client call
(success, Unauthorized, BadRequest, TimedOut, or any other exception),
send_message returns normally and never propagates an exception. -/
theorem send_message_never_raises (callResult : Except TgExc Unit) :
    exceptIsOk (send_message callResult) = true := by
  rcases callResult with e | ⟨⟩
  · cases e <;> rfl
  · rfl

/-- Claim C10: for every input that is not a dict, parse_status raises
TypeError before any field access, so a non-dict record never produces a
formatted message. -/
theorem parse_status_rejects_nondict (hw : PyVal) (h : hw.isDict = false) :
    parse_status hw
      = .error (.typeError ("Информация о домашнем задании - не слловарь: " ++ pyStr hw)) := by
  unfold parse_status
  rw [h, if_pos rfl]

/-- Claim C10 witness: a concrete non-dict record, evaluated through the
theorem. -/
theorem parse_status_rejects_nondict_witness :
    parse_status (PyVal.int 1)
      = .error (.typeError ("Информация о домашнем задании - не слловарь: " ++ pyStr (PyVal.int 1))) :=
  parse_status_rejects_nondict (PyVal.int 1) rfl

/-- Claim C2 counterexample: starting from errors_cache = -1, on the
first cycle whose response lacks the watermark the counter becomes 0 and
the failure notification IS sent (the gate passes at 0), contradicting
the claim that no notification is sent for the first failure. -/
theorem first_failure_is_notified :
    (driverStep s0 envNoWatermark).state.errors_cache = 0
    ∧ (driverStep s0 envNoWatermark).sent = true := ⟨rfl, rfl⟩

/-- Claim C2 as amended: first missing-watermark failure takes the
counter from -1 to 0 and the notification is sent; the second identical
failure takes it to 1 and nothing is sent; the next successful cycle
resets it to -1. -/
theorem error_streak_trace :
    ((driverStep s0 envNoWatermark).state.errors_cache = 0
      ∧ (driverStep s0 envNoWatermark).sent = true)
    ∧ ((driverStep (driverStep s0 envNoWatermark).state envNoWatermark).state.errors_cache = 1
      ∧ (driverStep (driverStep s0 envNoWatermark).state envNoWatermark).sent = false)
    ∧ (driverStep (driverStep (driverStep s0 envNoWatermark).state
          envNoWatermark).state envGood).state.errors_cache = -1 :=
  ⟨⟨rfl, rfl⟩, ⟨rfl, rfl⟩, rfl⟩

/-- Claim C3 counterexample: a cycle that fails in the formatter
(unknown status, a KeyError) still advances the watermark from 100 to
the response's 555, contradicting the claim that the watermark is left
unchanged on every failing cycle. -/
theorem watermark_advances_on_format_failure :
    errIs isKeyErr (tryBody s0 envUnknown).2 = true
    ∧ (driverStep s0 envUnknown).state.current_timestamp = 555
    ∧ s0.current_timestamp = 100 := ⟨rfl, rfl, rfl⟩

/-- Claim C4 (code bug): when the HTTP request raises, or the body fails
to parse as JSON, get_api_answer swallows the transport exception but
then raises NameError on the unbound response / response_json name, and
NameError is outside the recoverable classes of the per-cycle handler. -/
theorem transport_failure_becomes_nameerror :
    get_api_answer 100 { now := 1000, transport := .getRaises }
        = .error (.nameError ("name " ++ pyQuote ++ "response" ++ pyQuote ++ " is not defined"))
    ∧ get_api_answer 100 { now := 1000, transport := .response 200 (.error ()) }
        = .error (.nameError ("name " ++ pyQuote ++ "response_json" ++ pyQuote ++ " is not defined"))
    ∧ recoverable (.nameError ("name " ++ pyQuote ++ "response" ++ pyQuote ++ " is not defined")) = false
    ∧ recoverable (.nameError ("name " ++ pyQuote ++ "response_json" ++ pyQuote ++ " is not defined")) = false :=
  ⟨rfl, rfl, rfl, rfl⟩

/-- Claim C5 counterexample: a 200 response whose body carries the
service's error envelope makes get_api_answer fail with
requests.JSONDecodeError, not with APIError as claimed. -/
theorem error_envelope_not_apierror :
    errIs isJsonDecodeErr (get_api_answer 100 envEnvelope) = true
    ∧ errIs isApiErr (get_api_answer 100 envEnvelope) = false := ⟨rfl, rfl⟩

/-- Claim C3 as amended: the watermark is left unchanged on every cycle
where fetching or validation fails, and also on cycles where the held
watermark is outside the range datetime.fromtimestamp accepts (line 182
raises there, before the line-189 advance); on every other cycle where
fetching and validation succeed it advances to the validated response's
current_date — even when formatting subsequently fails in that cycle. -/
theorem watermark_advance_rule (s : DriverState) (env : CycleEnv) :
    (driverStep s env).state.current_timestamp =
      (match get_api_answer s.current_timestamp env with
       | .error _ => s.current_timestamp
       | .ok response =>
         match check_response response with
         | .error _ => s.current_timestamp
         | .ok _ =>
             if fromtimestampOk s.current_timestamp = true then
               watermarkOf response s.current_timestamp
             else s.current_timestamp) := by
  rcases hg : get_api_answer s.current_timestamp env with e | response
  · simp [driverStep, tryBody, hg]
  · rcases hc : check_response response with e | homeworks
    · simp [driverStep, tryBody, hg, hc]
    · cases hft : fromtimestampOk s.current_timestamp with
      | false => simp [driverStep, tryBody, hg, hc, hft]
      | true =>
          rcases homeworks with _ | ⟨hw, rest⟩
          · simp [driverStep, tryBody, hg, hc, hft]
          · rcases hp : parse_status hw with e | m
            · simp [driverStep, tryBody, hg, hc, hft, hp]
            · simp [driverStep, tryBody, hg, hc, hft, hp]

/-- Claim C5 as amended: on a parsed dict body, get_api_answer fails
with APIError when the HTTP status indicates failure (status at least
400); when the status is a success but the body carries an error or
code key, it instead fails with requests.JSONDecodeError. -/
theorem get_api_answer_error_classes (ct now : Int) (status : Nat) (kvs : List (String × PyVal)) :
    (400 ≤ status →
      errIs isApiErr
        (get_api_answer ct { now := now, transport := .response status (.ok (.dict kvs)) }) = true)
    ∧ (status < 400 →
        ((assocFind "error" kvs).isSome || (assocFind "code" kvs).isSome) = true →
        errIs isJsonDecodeErr
          (get_api_answer ct { now := now, transport := .response status (.ok (.dict kvs)) }) = true) := by
  constructor
  · intro h
    simp [get_api_answer, h, errIs, isApiErr]
  · intro h1 h2
    have h3 : ¬ (400 ≤ status) := by omega
    cases hb : (assocFind "error" kvs).isSome with
    | true => simp [get_api_answer, h3, pyIn, hb, errIs, isJsonDecodeErr]
    | false =>
        cases hc : (assocFind "code" kvs).isSome with
        | true => simp [get_api_answer, h3, pyIn, hb, hc, errIs, isJsonDecodeErr]
        | false => rw [hb, hc] at h2; simp at h2

/-- Claim C5 witness: a 500 status yields APIError; a 200 status with an
error key yields requests.JSONDecodeError. -/
theorem get_api_answer_error_classes_witness :
    errIs isApiErr
      (get_api_answer 1 { now := 2, transport := .response 500 (.ok (.dict [])) }) = true
    ∧ errIs isJsonDecodeErr
        (get_api_answer 1 { now := 2, transport := .response 200 (.ok (.dict [("error", .int 1)])) }) = true :=
  ⟨(get_api_answer_error_classes 1 2 500 []).1 (by decide),
   (get_api_answer_error_classes 1 2 200 [("error", .int 1)]).2 (by decide) (by decide)⟩

/-- Helper: every failure of a string-key subscript is a TypeError or a
KeyError. -/
theorem pySubscript_error_shape (v : PyVal) (key : String) (e : PyExc)
    (h : pySubscript v key = .error e) : isShapeErr e = true := by
  unfold pySubscript at h
  split at h
  · split at h
    · exact Except.noConfusion h
    · simp only [Except.error.injEq] at h
      subst h
      rfl
  all_goals
    simp only [Except.error.injEq] at h
    subst h
    rfl

/-- Helper: every failure of check_response is a TypeError or a
KeyError, the realization of the spec's ShapeError. -/
theorem check_response_error_shape (response : PyVal) (e : PyExc)
    (h : check_response response = .error e) : isShapeErr e = true := by
  unfold check_response at h
  split at h
  · rename_i e' heq
    simp only [Except.error.injEq] at h
    subst h
    exact pySubscript_error_shape response "current_date" e' heq
  · split at h
    · simp only [Except.error.injEq] at h
      subst h
      rfl
    · split at h
      · simp only [Except.error.injEq] at h
        subst h
        rfl
      · split at h
        · exact absurd h (by simp)
        · simp only [Except.error.injEq] at h
          subst h
          rfl

/-- Helper: on success check_response returns exactly the homeworks
field of the response. -/
theorem check_response_ok_homeworks (response : PyVal) (homeworks : List PyVal)
    (h : check_response response = .ok homeworks) :
    pyDictGetD response "homeworks" = PyVal.list homeworks := by
  unfold check_response at h
  split at h
  · exact Except.noConfusion h
  · split at h
    · exact Except.noConfusion h
    · split at h
      · exact Except.noConfusion h
      · split at h
        · rename_i heq
          simp only [Except.ok.injEq] at h
          subst h
          exact heq
        · exact Except.noConfusion h

/-- Helper: check_response succeeds exactly on well-shaped responses. -/
theorem check_response_isOk_eq (response : PyVal) :
    exceptIsOk (check_response response) = validShape response := by
  cases response with
  | dict kvs =>
      cases hcd : assocFind "current_date" kvs with
      | none =>
          simp [check_response, validShape, pySubscript, pyDictGet, hcd, exceptIsOk]
      | some v =>
          cases v with
          | int n =>
              cases hh : assocFind "homeworks" kvs with
              | none =>
                  simp [check_response, validShape, pySubscript, pyDictGet, pyDictGetD,
                        hcd, hh, exceptIsOk, PyVal.isInt, PyVal.isDict, PyVal.isList]
              | some hv =>
                  cases hv <;>
                    simp [check_response, validShape, pySubscript, pyDictGet, pyDictGetD,
                          hcd, hh, exceptIsOk, PyVal.isInt, PyVal.isDict, PyVal.isList]
          | str s =>
              simp [check_response, validShape, pySubscript, pyDictGet, hcd,
                    exceptIsOk, PyVal.isInt]
          | list xs =>
              simp [check_response, validShape, pySubscript, pyDictGet, hcd,
                    exceptIsOk, PyVal.isInt]
          | dict kvs2 =>
              simp [check_response, validShape, pySubscript, pyDictGet, hcd,
                    exceptIsOk, PyVal.isInt]
          | none =>
              simp [check_response, validShape, pySubscript, pyDictGet, hcd,
                    exceptIsOk, PyVal.isInt]
  | int n => simp [check_response, validShape, pySubscript, exceptIsOk, PyVal.isDict]
  | str s => simp [check_response, validShape, pySubscript, exceptIsOk, PyVal.isDict]
  | list xs => simp [check_response, validShape, pySubscript, exceptIsOk, PyVal.isDict]
  | none => simp [check_response, validShape, pySubscript, exceptIsOk, PyVal.isDict]

/-- Claim C6: check_response fails exactly when the response is not a
dict, its current_date is absent or not an integer, or its homeworks
field is not a list; every such failure is in the TypeError/KeyError
bucket (the realization of the spec's ShapeError); on success it
returns the homeworks list unchanged, with no per-record validation. -/
theorem check_response_shape_spec (response : PyVal) :
    exceptIsOk (check_response response) = validShape response
    ∧ (∀ e, check_response response = .error e → isShapeErr e = true)
    ∧ (∀ homeworks, check_response response = .ok homeworks →
        pyDictGetD response "homeworks" = PyVal.list homeworks) :=
  ⟨check_response_isOk_eq response,
   fun e h => check_response_error_shape response e h,
   fun homeworks h => check_response_ok_homeworks response homeworks h⟩

/-- Claim C6 witness: the theorem evaluated on a well-shaped response
(success path) and on a response lacking the watermark (KeyError
path). -/
theorem check_response_shape_spec_witness :
    exceptIsOk (check_response respGood) = validShape respGood
    ∧ isShapeErr (PyExc.keyError "current_date") = true
    ∧ pyDictGetD respGood "homeworks" = PyVal.list [] :=
  ⟨(check_response_shape_spec respGood).1,
   (check_response_shape_spec respNoWatermark).2.1 (PyExc.keyError "current_date") rfl,
   (check_response_shape_spec respGood).2.2 [] rfl⟩

/-- Claim C8 counterexample: a record whose status value is a list (an
unhashable value) makes parse_status fail with TypeError at the
membership test itself, not with the KeyError that realizes
UnknownStatusError. -/
theorem unhashable_status_not_keyerror :
    parse_status (PyVal.dict [("status", PyVal.list [])])
        = .error (.typeError ("unhashable type: " ++ pyQuote ++ "list" ++ pyQuote))
    ∧ errIs isKeyErr (parse_status (PyVal.dict [("status", PyVal.list [])])) = false :=
  ⟨rfl, rfl⟩

/-- Claim C8 as amended: for every dict record whose status value is
hashable (not a list or dict) and not one of the three recognized
statuses, parse_status fails with a KeyError (the realization of the
spec's UnknownStatusError) — an unhashable status value instead fails
with TypeError at the membership test — and every exception escaping
the try block is consumed by the per-cycle handler, which turns it into
the failure message instead of terminating the loop. -/
theorem unknown_status_fails_and_is_caught (kvs : List (String × PyVal))
    (h1 : statusHashable (pyDictGetD (PyVal.dict kvs) "status") = true)
    (h2 : statusKnown (pyDictGetD (PyVal.dict kvs) "status") = false) :
    errIs isKeyErr (parse_status (PyVal.dict kvs)) = true
    ∧ ∀ (s : DriverState) (env : CycleEnv) (e : PyExc),
        (tryBody s env).2 = .error e →
        (driverStep s env).message = "Сбой в работе программы: " ++ excStr e := by
  constructor
  · have h3 : statusLookupPy (pyDictGetD (PyVal.dict kvs) "status") = .ok Option.none := by
      cases hv : pyDictGetD (PyVal.dict kvs) "status" with
      | list xs => rw [hv] at h1; simp [statusHashable] at h1
      | dict kvs2 => rw [hv] at h1; simp [statusHashable] at h1
      | str s =>
          simp only [statusKnown, statusLookup, hv] at h2
          cases hfind : assocFind s HOMEWORK_STATUSES with
          | none => simp [statusLookupPy, hfind]
          | some verdict => rw [hfind] at h2; simp at h2
      | int n => simp [statusLookupPy]
      | none => simp [statusLookupPy]
    simp [parse_status, PyVal.isDict, h3, errIs, isKeyErr]
  · intro s env e h4
    rcases h5 : tryBody s env with ⟨s1, out⟩
    rw [h5] at h4
    simp only at h4
    subst h4
    simp [driverStep, h5]

/-- Claim C8 witness: a concrete record with status weird fails with
KeyError, and the driver cycle built around it completes with the
handled failure message. -/
theorem unknown_status_fails_and_is_caught_witness :
    errIs isKeyErr (parse_status (PyVal.dict [("status", .str "weird")])) = true
    ∧ (driverStep s0 envUnknown).message
        = "Сбой в работе программы: "
            ++ excStr (PyExc.keyError ("Получен незадокументированный статус работы: weird")) :=
  ⟨(unknown_status_fails_and_is_caught [("status", .str "weird")] (by decide) (by decide)).1,
   (unknown_status_fails_and_is_caught [("status", .str "weird")] (by decide) (by decide)).2
      s0 envUnknown (PyExc.keyError ("Получен незадокументированный статус работы: weird")) rfl⟩
